import Mathlib

/-!
Verification of the scrape-and-store pipeline (MongoDB gateway, scrape
operations, orchestrator, reporting) as a shallow embedding.

Source files embedded:
- `src/unnamed/part_000` (mongodb gateway: `connectToMongo`, `closeMongo`,
  `storeData`, `findData`, `aggregateData`)
- `src/unnamed/part_001` (schemas: Product, ProductList, Review, COLLECTIONS)
- `src/scraper.ts` (`scrapeProductList`, `scrapeProductDetails`,
  `scrapeProductReviews`)
- `src/index.ts` (orchestrator `main`: per-product loop over the first 3)
- `src/query.ts` (`runQueries`: price-range aggregation pipeline)

Conventions of the embedding:
- Promise-based stateful code becomes explicit state passing; a thrown
  JS error becomes `Except.error`.
- The external pieces (the Mongo transport, the insert outcome, the
  Stagehand extraction oracle) become explicit parameters, so every
  function is a pure function of its inputs.
- `new Date()` capture timestamps become a `now : Nat` parameter;
  `new Date(s)` parsing becomes the uninterpreted constructor
  `DateVal.fromString`.
-/

namespace Scraper

/-! ## Document-store gateway (src/unnamed/part_000) -/

/-- Module state of the mongodb gateway: `let client`, `let db`
(both `null` initially).  `connCount` counts how many physical
connections `client.connect()` has established, to express
"without establishing a new connection". -/
structure MongoState where
  client : Option Nat
  db : Option Nat
  connCount : Nat
deriving Repr, DecidableEq

/-- The initial module state: `client = null`, `db = null`. -/
def initialMongoState : MongoState := ⟨none, none, 0⟩

/-- `connectToMongo()`: `if (db) return db;` else establish a connection
(the transport outcome is the `transport` parameter: `.ok h` means
`client.connect()` succeeds and `client.db(DB_NAME)` yields handle `h`;
`.error e` means the connect throws, which is rethrown). -/
def connectToMongo (transport : Except String Nat) (s : MongoState) :
    Except String (Nat × MongoState) :=
  match s.db with
  | some d => .ok (d, s)
  | none =>
    match transport with
    | .ok h => .ok (h, { client := some h, db := some h, connCount := s.connCount + 1 })
    | .error e => .error e

/-- The contents of the document store: each collection name maps to the
list of documents in that collection, in insertion order. -/
def DbState (α : Type) : Type := String → List α

/-- One batch write performed against the store (`insertMany` of the
listed documents, or `insertOne` when the list is a singleton). -/
structure WriteOp (α : Type) where
  coll : String
  docs : List α
deriving Repr, DecidableEq

/-- `collection.insertMany(docs)`: appends the documents to the named
collection, leaving every other collection unchanged. -/
def insertMany {α : Type} (st : DbState α) (coll : String) (docs : List α) : DbState α :=
  fun c => if c = coll then st c ++ docs else st c

/-- `collection.insertOne(doc)`. -/
def insertOne {α : Type} (st : DbState α) (coll : String) (doc : α) : DbState α :=
  insertMany st coll [doc]

/-- The one-or-many argument type of `storeData` (`data: T | T[]`). -/
inductive StoreInput (α : Type) where
  | single (a : α)
  | many (xs : List α)
deriving Repr, DecidableEq

/-- `storeData(collectionName, data)`: first `await connectToMongo()`
(whose failure propagates), then
`if (Array.isArray(data)) { if (data.length > 0) insertMany } else insertOne`;
an insert failure (`insertFail = true`, covering a constraint violation or
transport failure on the actual insert call) is logged and rethrown.
Returns the gateway state, the store contents and the list of performed
batch writes. -/
def storeData {α : Type} (transport : Except String Nat) (insertFail : Bool)
    (s : MongoState) (st : DbState α) (collectionName : String)
    (data : StoreInput α) :
    Except String (MongoState × DbState α × List (WriteOp α)) :=
  match connectToMongo transport s with
  | .error e => .error e
  | .ok (_, s1) =>
    match data with
    | .many xs =>
      if xs.length > 0 then
        if insertFail then .error "WriteError"
        else .ok (s1, insertMany st collectionName xs, [⟨collectionName, xs⟩])
      else .ok (s1, st, [])
    | .single a =>
      if insertFail then .error "WriteError"
      else .ok (s1, insertOne st collectionName a, [⟨collectionName, [a]⟩])

/-! ## Collection names (src/unnamed/part_001, `COLLECTIONS`) -/

def COLLECTIONS_PRODUCTS : String := "products"
def COLLECTIONS_PRODUCT_LISTS : String := "product_lists"
def COLLECTIONS_REVIEWS : String := "reviews"

/-! ## Data model (src/unnamed/part_001 and the inline zod shapes of
src/scraper.ts) -/

/-- The value of a JS `new Date(s)` call, kept uninterpreted. -/
inductive DateVal where
  | fromString (s : String)
deriving Repr, DecidableEq

/-- One entry of the product-list extraction shape
(src/scraper.ts lines 29-36): name, price, url required;
imageUrl, rating, reviewCount optional.  JS numbers are modelled as
`Int`. -/
structure RawListProduct where
  name : String
  price : String
  url : String
  imageUrl : Option String
  rating : Option Int
  reviewCount : Option Int
deriving Repr, DecidableEq

/-- The whole product-list oracle response
(src/scraper.ts lines 26-40): `products`, `category`,
optional `totalProducts`. -/
structure ListOracleData where
  products : List RawListProduct
  category : String
  totalProducts : Option Int
deriving Repr, DecidableEq

/-- A product document as persisted by the list scrape: the extracted
entry plus the `dateScraped` capture timestamp (src/scraper.ts
lines 43-46). -/
structure ProductDoc where
  name : String
  price : String
  url : String
  imageUrl : Option String
  rating : Option Int
  reviewCount : Option Int
  dateScraped : Nat
deriving Repr, DecidableEq

/-- The ProductList document (src/scraper.ts lines 49-56): products,
category, `page: 1`, optional totalProducts, `websiteName: "Amazon"`,
capture timestamp. -/
structure ProductListDoc where
  products : List ProductDoc
  category : String
  page : Nat
  totalProducts : Option Int
  websiteName : String
  dateScraped : Nat
deriving Repr, DecidableEq

/-- One entry of the reviews extraction shape (src/scraper.ts
lines 120-127): rating and content required; author, title, date
(a string), helpful optional. -/
structure RawReview where
  author : Option String
  rating : Int
  title : Option String
  content : String
  date : Option String
  helpful : Option Int
deriving Repr, DecidableEq

/-- The whole reviews oracle response (src/scraper.ts lines 116-129):
a productId and the array of review entries. -/
structure ReviewsOracleData where
  productId : String
  reviews : List RawReview
deriving Repr, DecidableEq

/-- A review document as persisted (src/scraper.ts lines 132-138):
the entry plus productId, parsed date, capture timestamp and the
`verified: true` flag. -/
structure ReviewDoc where
  author : Option String
  rating : Int
  title : Option String
  content : String
  helpful : Option Int
  productId : String
  date : Option DateVal
  dateScraped : Nat
  verified : Bool
deriving Repr, DecidableEq

/-- A document of any of the three collections, so one `DbState` can
hold the heterogeneous store. -/
inductive Doc where
  | product (p : ProductDoc)
  | productList (pl : ProductListDoc)
  | review (r : ReviewDoc)
deriving Repr, DecidableEq

/-! ## Scrape: product list (src/scraper.ts, `scrapeProductList`) -/

/-- The post-processing of one extracted list entry:
`{ ...product, dateScraped: new Date() }` (src/scraper.ts lines 43-46). -/
def stampProduct (now : Nat) (p : RawListProduct) : ProductDoc :=
  ⟨p.name, p.price, p.url, p.imageUrl, p.rating, p.reviewCount, now⟩

/-- The local `const products` of `scrapeProductList` (src/scraper.ts
lines 43-46): each extracted entry stamped with the capture timestamp. -/
def listScrapeProducts (data : ListOracleData) (now : Nat) : List ProductDoc :=
  data.products.map (stampProduct now)

/-- The local `const productList` of `scrapeProductList` (src/scraper.ts
lines 49-56). -/
def listScrapeProductList (data : ListOracleData) (now : Nat) : ProductListDoc :=
  ⟨listScrapeProducts data now, data.category, 1, data.totalProducts,
    "Amazon", now⟩

/-- `scrapeProductList(page, categoryUrl)` after the navigation and
scrolling steps: the oracle response `data` is post-processed
(timestamp each product, wrap into a ProductList with
`page := 1`, `websiteName := "Amazon"`), the ProductList is stored as
one document in `product_lists` and the products as one batch in
`products`; the ProductList is returned.  Navigation and extraction are
abstracted into the `data` parameter; persistence failures propagate. -/
def scrapeProductList (transport : Except String Nat) (s : MongoState)
    (st : DbState Doc) (data : ListOracleData) (now : Nat) :
    Except String (ProductListDoc × MongoState × DbState Doc) :=
  match storeData transport false s st COLLECTIONS_PRODUCT_LISTS
      (.single (Doc.productList (listScrapeProductList data now))) with
  | .error e => .error e
  | .ok (s1, st1, _) =>
    match storeData transport false s1 st1 COLLECTIONS_PRODUCTS
        (.many ((listScrapeProducts data now).map Doc.product)) with
    | .error e => .error e
    | .ok (s2, st2, _) => .ok (listScrapeProductList data now, s2, st2)

/-! ## Scrape: product reviews (src/scraper.ts, `scrapeProductReviews`) -/

/-- The `/dp/` marker (src/scraper.ts line 108), as a character list. -/
def dpMarker : List Char := '/' :: 'd' :: 'p' :: '/' :: []

/-- The `/product-reviews/` replacement (src/scraper.ts line 109). -/
def productReviewsSeg : List Char :=
  '/' :: 'p' :: 'r' :: 'o' :: 'd' :: 'u' :: 'c' :: 't' :: '-' ::
  'r' :: 'e' :: 'v' :: 'i' :: 'e' :: 'w' :: 's' :: '/' :: []

/-- JS `String.prototype.replace` with a string pattern: replaces the
FIRST occurrence of `pat` only, scanning left to right; if `pat` never
occurs the list is returned unchanged.  (Only used with the non-empty
pattern `dpMarker`.) -/
def listReplaceFirst (pat repl : List Char) : List Char → List Char
  | [] => []
  | c :: cs =>
    if pat.isPrefixOf (c :: cs) then repl ++ (c :: cs).drop pat.length
    else c :: listReplaceFirst pat repl cs

/-- The reviews-page URL derivation (src/scraper.ts lines 108-110):
`productUrl.includes('/dp/') ? productUrl.replace('/dp/', '/product-reviews/') : productUrl`. -/
def reviewsUrlOf (productUrl : String) : String :=
  if dpMarker <:+: productUrl.data then
    String.mk (listReplaceFirst dpMarker productReviewsSeg productUrl.data)
  else productUrl

/-- The post-processing of one extracted review (src/scraper.ts
lines 132-138): spread the entry, overwrite `productId` with the
oracle's product reference, set
`date: review.date ? new Date(review.date) : undefined` (JS truthiness:
an empty string is falsy), stamp `dateScraped`, set `verified: true`. -/
def processReview (productId : String) (now : Nat) (r : RawReview) : ReviewDoc :=
  { author := r.author
    rating := r.rating
    title := r.title
    content := r.content
    helpful := r.helpful
    productId := productId
    date := match r.date with
      | some ds => if ds = "" then none else some (DateVal.fromString ds)
      | none => none
    dateScraped := now
    verified := true }

/-- The local `const reviews` of `scrapeProductReviews` (src/scraper.ts
lines 132-138): every extracted entry post-processed with the oracle's
product reference. -/
def processReviews (data : ReviewsOracleData) (now : Nat) : List ReviewDoc :=
  data.reviews.map (processReview data.productId now)

/-- `scrapeProductReviews(page, productUrl)`: derives the reviews URL,
navigates there (the visited URL is returned as the first component),
post-processes the oracle's review entries, and stores the batch in
`reviews` only when it is non-empty (src/scraper.ts lines 141-144);
an empty batch performs no store call at all. -/
def scrapeProductReviews (transport : Except String Nat) (s : MongoState)
    (st : DbState Doc) (productUrl : String) (data : ReviewsOracleData)
    (now : Nat) :
    Except String (String × MongoState × DbState Doc) :=
  if (processReviews data now).length > 0 then
    match storeData transport false s st COLLECTIONS_REVIEWS
        (.many ((processReviews data now).map Doc.review)) with
    | .error e => .error e
    | .ok (s1, st1, _) => .ok (reviewsUrlOf productUrl, s1, st1)
  else .ok (reviewsUrlOf productUrl, s, st)

/-! ## Orchestrator (src/index.ts, `main`): the per-product loop -/

/-- An observable step of the orchestrator's per-product loop. -/
inductive Event where
  | detailScraped (url : String)
  | reviewsScraped (url : String)
  | errorLogged (url : String)
deriving Repr, DecidableEq

/-- One iteration of the loop body (src/index.ts lines 413-426):
`try { scrapeProductDetails; scrapeProductReviews; wait } catch { log }`.
`detailFails`/`reviewsFails` give the failure behaviour of the two
scrape calls on each URL; a thrown error is caught and logged, ending
only this iteration. -/
def processOne (detailFails reviewsFails : String → Bool) (p : ProductDoc) :
    List Event :=
  if detailFails p.url then [Event.errorLogged p.url]
  else if reviewsFails p.url then
    [Event.detailScraped p.url, Event.errorLogged p.url]
  else [Event.detailScraped p.url, Event.reviewsScraped p.url]

/-- `const productsToScrape = productList.products.slice(0, 3)`
(src/index.ts line 408). -/
def productsToScrape (pl : ProductListDoc) : List ProductDoc :=
  pl.products.take 3

/-- The whole per-product loop (src/index.ts lines 410-427): iterate
`processOne` over the first 3 products, concatenating the events. -/
def mainLoop (detailFails reviewsFails : String → Bool) (pl : ProductListDoc) :
    List Event :=
  (productsToScrape pl).flatMap (processOne detailFails reviewsFails)

/-! ## Reporting (src/query.ts, `runQueries`): price-range pipeline -/

/-- MongoDB `$replaceAll` for a single-character `find` string (the
pipeline only uses `find: "$"` and `find: ","`): every occurrence of
the character is replaced. -/
def replaceAllChar (find : Char) (repl : List Char) : List Char → List Char
  | [] => []
  | c :: cs =>
    if c = find then repl ++ replaceAllChar find repl cs
    else c :: replaceAllChar find repl cs

/-- The numeric value of one decimal digit. -/
def digitVal? (c : Char) : Option Nat :=
  if c.isDigit then some (c.toNat - '0'.toNat) else none

/-- Reads a string of decimal digits as a natural number; fails on any
non-digit. -/
def digitsToNat? (l : List Char) : Option Nat :=
  l.foldlM (fun acc c => (digitVal? c).map (fun dv => 10 * acc + dv)) 0

/-- MongoDB `$toDouble` on a decimal string, modelled exactly over `Rat`
(an optional integer part, an optional '.' and fractional digits);
fails on a malformed string. -/
def toDouble? (l : List Char) : Option Rat :=
  let intPart := l.takeWhile (fun c => c ≠ '.')
  match l.dropWhile (fun c => c ≠ '.') with
  | [] => (digitsToNat? intPart).map (fun n => (n : Rat))
  | _ :: frac =>
    match digitsToNat? intPart, digitsToNat? frac with
    | some n, some f => some ((n : Rat) + (f : Rat) / ((10 : Rat) ^ frac.length))
    | _, _ => none

/-- The `$addFields numericPrice` stage (src/query.ts lines 52-69):
strip every `$`, then every `,`, then `$toDouble`. -/
def numericPrice (price : String) : Option Rat :=
  toDouble? (replaceAllChar ',' [] (replaceAllChar '$' [] price.data))

/-- The `$group` stage over the numeric prices (src/query.ts
lines 71-78): `(avgPrice, minPrice, maxPrice)` of all documents, or
no result row when the collection is empty or a price fails to cast. -/
def priceRangeAnalysis (prices : List String) : Option (Rat × Rat × Rat) :=
  match prices.mapM numericPrice with
  | some (x :: xs) =>
    some (((x :: xs).foldl (fun a b => a + b) 0) / (((x :: xs).length : Nat) : Rat),
          xs.foldl min x, xs.foldl max x)
  | _ => none

end Scraper

/-! ## Theorems -/

namespace Scraper

/-- Helper: a successful `connectToMongo` leaves the gateway in a state
whose further `connectToMongo` calls return the same handle and state. -/
theorem connectToMongo_stable (t t2 : Except String Nat) (s s1 : MongoState)
    (d : Nat) (hconn : connectToMongo t s = .ok (d, s1)) :
    connectToMongo t2 s1 = .ok (d, s1) := by
  unfold connectToMongo at hconn ⊢
  cases hdb : s.db with
  | some d0 =>
    rw [hdb] at hconn
    cases hconn
    rw [hdb]
  | none =>
    rw [hdb] at hconn
    cases ht : t with
    | ok h => rw [ht] at hconn; cases hconn; rfl
    | error e => rw [ht] at hconn; cases hconn

/-- Claim C2: after a first successful `connectToMongo`, a second call
returns the very same handle and the very same state (in particular
`connCount` is unchanged: no new connection is established), whatever
the transport would do on a fresh attempt. -/
theorem connect_idempotent (t t2 : Except String Nat) (s s1 : MongoState)
    (d : Nat) (hconn : connectToMongo t s = .ok (d, s1)) :
    connectToMongo t2 s1 = .ok (d, s1) := by
  unfold connectToMongo at hconn ⊢
  cases hdb : s.db with
  | some d0 =>
    rw [hdb] at hconn
    cases hconn
    rw [hdb]
  | none =>
    rw [hdb] at hconn
    cases ht : t with
    | ok h => rw [ht] at hconn; cases hconn; rfl
    | error e => rw [ht] at hconn; cases hconn

/-- Witness for `connect_idempotent` at a concrete first connection. -/
theorem connect_idempotent_witness :
    connectToMongo (.error "down") ⟨some 7, some 7, 1⟩ = .ok (7, ⟨some 7, some 7, 1⟩) :=
  connect_idempotent (.ok 7) (.error "down") initialMongoState ⟨some 7, some 7, 1⟩ 7 rfl

/-- Claim C1: behaviour of `storeData` once the gateway can connect
(`connectToMongo t s = .ok (d, s1)`), with the insert call itself
succeeding in the cases where one is issued:
(a) a non-empty sequence of N records is inserted as one batch and the
target collection grows by exactly N documents;
(b) an empty sequence performs zero writes and raises no error,
regardless of whether an insert call would have failed;
(c) a single non-sequence record adds exactly one document. -/
theorem storeData_spec {α : Type} (t : Except String Nat) (s s1 : MongoState)
    (st : DbState α) (coll : String) (xs : List α) (a : α) (d : Nat)
    (hconn : connectToMongo t s = .ok (d, s1)) :
    (xs.length > 0 →
      storeData t false s st coll (.many xs) =
        .ok (s1, insertMany st coll xs, [⟨coll, xs⟩]) ∧
      (insertMany st coll xs) coll = st coll ++ xs ∧
      ((insertMany st coll xs) coll).length = (st coll).length + xs.length) ∧
    (∀ insertFail : Bool,
      storeData t insertFail s st coll (.many []) = .ok (s1, st, [])) ∧
    (storeData t false s st coll (.single a) =
        .ok (s1, insertOne st coll a, [⟨coll, [a]⟩]) ∧
      ((insertOne st coll a) coll).length = (st coll).length + 1) := by
  refine ⟨fun hlen => ?_, fun insertFail => ?_, ?_, ?_⟩
  · refine ⟨?_, ?_, ?_⟩
    · unfold storeData
      rw [hconn]
      simp [hlen]
    · simp [insertMany]
    · simp [insertMany]
  · unfold storeData
    rw [hconn]
    simp
  · unfold storeData
    rw [hconn]
    simp
  · simp [insertOne, insertMany]

/-- Witness for `storeData_spec`: a fresh gateway with a working
transport, a two-record batch, an empty batch and a single record over
an initially empty store. -/
theorem storeData_spec_witness :
    ((([3, 4] : List Nat).length > 0 →
      storeData (.ok 0) false initialMongoState (fun _ => []) "c" (.many [3, 4]) =
        .ok (⟨some 0, some 0, 1⟩, insertMany (fun _ => []) "c" [3, 4], [⟨"c", [3, 4]⟩]) ∧
      (insertMany (fun _ => ([] : List Nat)) "c" [3, 4]) "c" = [] ++ [3, 4] ∧
      ((insertMany (fun _ => ([] : List Nat)) "c" [3, 4]) "c").length = ([] : List Nat).length + 2) ∧
    (∀ insertFail : Bool,
      storeData (.ok 0) insertFail initialMongoState (fun _ => ([] : List Nat)) "c" (.many []) =
        .ok (⟨some 0, some 0, 1⟩, fun _ => [], [])) ∧
    (storeData (.ok 0) false initialMongoState (fun _ => ([] : List Nat)) "c" (.single 5) =
        .ok (⟨some 0, some 0, 1⟩, insertOne (fun _ => []) "c" 5, [⟨"c", [5]⟩]) ∧
      ((insertOne (fun _ => ([] : List Nat)) "c" 5) "c").length = ([] : List Nat).length + 1)) :=
  storeData_spec (.ok 0) initialMongoState ⟨some 0, some 0, 1⟩ (fun _ => []) "c" [3, 4] 5 0 rfl

/-- Claim C3: for every oracle response with K product entries, the
product-list scrape succeeds, adds exactly one document to the
`product_lists` collection and exactly K documents to the distinct
`products` collection, the stored ProductList carries
`websiteName = "Amazon"`, `page = 1` and the capture timestamp, every
stored product carries the capture timestamp, and the ProductList is
returned. -/
theorem scrapeProductList_spec (t : Except String Nat) (s s1 : MongoState)
    (st : DbState Doc) (data : ListOracleData) (now : Nat) (d : Nat)
    (hconn : connectToMongo t s = .ok (d, s1)) :
    ∃ pl s2 st2,
      scrapeProductList t s st data now = .ok (pl, s2, st2) ∧
      pl.websiteName = "Amazon" ∧
      pl.page = 1 ∧
      pl.dateScraped = now ∧
      pl.products = data.products.map (stampProduct now) ∧
      COLLECTIONS_PRODUCT_LISTS ≠ COLLECTIONS_PRODUCTS ∧
      st2 COLLECTIONS_PRODUCT_LISTS =
        st COLLECTIONS_PRODUCT_LISTS ++ [Doc.productList pl] ∧
      st2 COLLECTIONS_PRODUCTS =
        st COLLECTIONS_PRODUCTS ++
          (data.products.map (stampProduct now)).map Doc.product ∧
      (st2 COLLECTIONS_PRODUCT_LISTS).length =
        (st COLLECTIONS_PRODUCT_LISTS).length + 1 ∧
      (st2 COLLECTIONS_PRODUCTS).length =
        (st COLLECTIONS_PRODUCTS).length + data.products.length ∧
      (∀ p ∈ pl.products, p.dateScraped = now) := by
  have hconn1 : connectToMongo t s1 = .ok (d, s1) :=
    connectToMongo_stable t t s s1 d hconn
  have h1 : storeData t false s st COLLECTIONS_PRODUCT_LISTS
      (.single (Doc.productList (listScrapeProductList data now))) =
      .ok (s1,
        insertOne st COLLECTIONS_PRODUCT_LISTS
          (Doc.productList (listScrapeProductList data now)),
        [⟨COLLECTIONS_PRODUCT_LISTS,
          [Doc.productList (listScrapeProductList data now)]⟩]) := by
    unfold storeData
    rw [hconn]
    rfl
  have h2 : storeData t false s1
      (insertOne st COLLECTIONS_PRODUCT_LISTS
        (Doc.productList (listScrapeProductList data now)))
      COLLECTIONS_PRODUCTS
      (.many ((listScrapeProducts data now).map Doc.product)) =
      .ok (s1,
        insertMany
          (insertOne st COLLECTIONS_PRODUCT_LISTS
            (Doc.productList (listScrapeProductList data now)))
          COLLECTIONS_PRODUCTS ((listScrapeProducts data now).map Doc.product),
        if ((listScrapeProducts data now).map Doc.product).length > 0 then
          [⟨COLLECTIONS_PRODUCTS, (listScrapeProducts data now).map Doc.product⟩]
        else []) := by
    unfold storeData
    rw [hconn1]
    cases hp : (listScrapeProducts data now).map Doc.product with
    | nil =>
      simp only [List.length_nil, gt_iff_lt, Nat.lt_irrefl, if_false]
      have : insertMany
          (insertOne st COLLECTIONS_PRODUCT_LISTS
            (Doc.productList (listScrapeProductList data now)))
          COLLECTIONS_PRODUCTS [] =
          insertOne st COLLECTIONS_PRODUCT_LISTS
            (Doc.productList (listScrapeProductList data now)) := by
        funext c
        simp [insertMany]
      rw [this]
    | cons q qs => simp
  refine ⟨listScrapeProductList data now, s1,
    insertMany
      (insertOne st COLLECTIONS_PRODUCT_LISTS
        (Doc.productList (listScrapeProductList data now)))
      COLLECTIONS_PRODUCTS ((listScrapeProducts data now).map Doc.product),
    ?_, rfl, rfl, rfl, rfl, by decide, ?_, ?_, ?_, ?_, ?_⟩
  · unfold scrapeProductList
    rw [h1]
    simp only [h2]
  · simp [insertMany, insertOne, COLLECTIONS_PRODUCT_LISTS, COLLECTIONS_PRODUCTS]
  · simp [insertMany, insertOne, COLLECTIONS_PRODUCT_LISTS, COLLECTIONS_PRODUCTS,
      listScrapeProducts]
  · simp [insertMany, insertOne, COLLECTIONS_PRODUCT_LISTS, COLLECTIONS_PRODUCTS]
  · simp [insertMany, insertOne, COLLECTIONS_PRODUCT_LISTS, COLLECTIONS_PRODUCTS,
      listScrapeProducts]
  · intro p hp
    simp only [listScrapeProductList, listScrapeProducts] at hp
    obtain ⟨q, _, hq⟩ := List.mem_map.mp hp
    rw [← hq]
    rfl

/-- Witness for `scrapeProductList_spec`: a fresh gateway, a working
transport, an empty store and a two-product oracle response. -/
theorem scrapeProductList_spec_witness :
    ∃ pl s2 st2,
      scrapeProductList (.ok 0) initialMongoState (fun _ => [])
          ⟨[⟨"A", "$1", "uA", none, none, none⟩,
            ⟨"B", "$2", "uB", none, none, none⟩], "laptops", none⟩ 5 =
        .ok (pl, s2, st2) ∧
      pl.websiteName = "Amazon" ∧
      pl.page = 1 ∧
      pl.dateScraped = 5 ∧
      pl.products =
        ([⟨"A", "$1", "uA", none, none, none⟩,
          ⟨"B", "$2", "uB", none, none, none⟩] :
            List RawListProduct).map (stampProduct 5) ∧
      COLLECTIONS_PRODUCT_LISTS ≠ COLLECTIONS_PRODUCTS ∧
      st2 COLLECTIONS_PRODUCT_LISTS =
        (fun _ => ([] : List Doc)) COLLECTIONS_PRODUCT_LISTS ++ [Doc.productList pl] ∧
      st2 COLLECTIONS_PRODUCTS =
        (fun _ => ([] : List Doc)) COLLECTIONS_PRODUCTS ++
          (([⟨"A", "$1", "uA", none, none, none⟩,
             ⟨"B", "$2", "uB", none, none, none⟩] :
              List RawListProduct).map (stampProduct 5)).map Doc.product ∧
      (st2 COLLECTIONS_PRODUCT_LISTS).length =
        ((fun _ => ([] : List Doc)) COLLECTIONS_PRODUCT_LISTS).length + 1 ∧
      (st2 COLLECTIONS_PRODUCTS).length =
        ((fun _ => ([] : List Doc)) COLLECTIONS_PRODUCTS).length +
          ([⟨"A", "$1", "uA", none, none, none⟩,
            ⟨"B", "$2", "uB", none, none, none⟩] :
              List RawListProduct).length ∧
      (∀ p ∈ pl.products, p.dateScraped = 5) :=
  scrapeProductList_spec (.ok 0) initialMongoState ⟨some 0, some 0, 1⟩
    (fun _ => [])
    ⟨[⟨"A", "$1", "uA", none, none, none⟩,
      ⟨"B", "$2", "uB", none, none, none⟩], "laptops", none⟩ 5 0 rfl

/-- Claim C9: a reviews scrape whose oracle response contains zero
review entries performs no store call at all: the gateway state and
every collection are unchanged and no error is raised, for every
transport behaviour. -/
theorem scrapeProductReviews_empty_noop (t : Except String Nat)
    (s : MongoState) (st : DbState Doc) (productUrl : String)
    (data : ReviewsOracleData) (now : Nat) (hempty : data.reviews = []) :
    scrapeProductReviews t s st productUrl data now =
      .ok (reviewsUrlOf productUrl, s, st) := by
  unfold scrapeProductReviews processReviews
  rw [hempty]
  simp

/-- Witness for `scrapeProductReviews_empty_noop`: even with a failing
transport and a fresh gateway, a zero-review extraction is a no-op. -/
theorem scrapeProductReviews_empty_noop_witness :
    scrapeProductReviews (.error "down") initialMongoState (fun _ => [])
        "https://site/dp/X" ⟨"P1", []⟩ 3 =
      .ok (reviewsUrlOf "https://site/dp/X", initialMongoState, fun _ => []) :=
  scrapeProductReviews_empty_noop (.error "down") initialMongoState
    (fun _ => []) "https://site/dp/X" ⟨"P1", []⟩ 3 rfl

/-- Claim C4: the reviews-page URL derivation is the literal first
substring replacement of `/dp/` by `/product-reviews/` when the marker
occurs in the URL, is the identity when the marker is absent, and maps
`https://site/dp/ABC123` to `https://site/product-reviews/ABC123`. -/
theorem reviewsUrl_derivation (url : String) :
    (dpMarker <:+: url.data →
      reviewsUrlOf url =
        String.mk (listReplaceFirst dpMarker productReviewsSeg url.data)) ∧
    (¬ dpMarker <:+: url.data → reviewsUrlOf url = url) ∧
    reviewsUrlOf "https://site/dp/ABC123" =
      "https://site/product-reviews/ABC123" := by
  refine ⟨fun h => ?_, fun h => ?_, by decide⟩
  · unfold reviewsUrlOf
    rw [if_pos h]
  · unfold reviewsUrlOf
    rw [if_neg h]

/-- Witness for `reviewsUrl_derivation`: a URL without the `/dp/`
marker is passed through unchanged. -/
theorem reviewsUrl_derivation_witness :
    reviewsUrlOf "https://example.com/gp/X" = "https://example.com/gp/X" :=
  (reviewsUrl_derivation "https://example.com/gp/X").2.1 (by decide)

/-- Counterexample to claim C5 as stated: for the review entry whose
date string is present but empty, the post-processed date field is
absent (JS truthiness treats `""` as false), although the claim
demands a parsed date value for every present input date string. -/
theorem review_date_empty_string_counterexample :
    ((⟨none, 5, none, "ok", some "", none⟩ : RawReview).date).isSome = true ∧
    (processReview "P1" 7 ⟨none, 5, none, "ok", some "", none⟩).date = none := by
  decide

/-- Claim C5 (amended): review post-processing always sets
`verified = true`, always stamps the capture timestamp, always attaches
the oracle's product reference, and sets the date field to the parsed
date value when the input date string is present and non-empty, and to
absent when the input date string is absent or empty. -/
theorem processReview_spec (productId : String) (now : Nat) (r : RawReview) :
    (processReview productId now r).verified = true ∧
    (processReview productId now r).dateScraped = now ∧
    (processReview productId now r).productId = productId ∧
    (∀ ds : String, r.date = some ds → ds ≠ "" →
      (processReview productId now r).date = some (DateVal.fromString ds)) ∧
    ((r.date = none ∨ r.date = some "") →
      (processReview productId now r).date = none) := by
  refine ⟨rfl, rfl, rfl, fun ds hds hne => ?_, fun hd => ?_⟩
  · unfold processReview
    rw [hds]
    simp [hne]
  · unfold processReview
    cases hd with
    | inl h => rw [h]
    | inr h => rw [h]; simp

/-- Witness for `processReview_spec`: a concrete review entry with a
non-empty date string gets the parsed date value. -/
theorem processReview_spec_witness :
    (processReview "P1" 7 ⟨none, 5, none, "ok", some "2024-01-01", none⟩).date =
      some (DateVal.fromString "2024-01-01") :=
  (processReview_spec "P1" 7
    ⟨none, 5, none, "ok", some "2024-01-01", none⟩).2.2.2.1
    "2024-01-01" rfl (by decide)

/-- Claim C6: the price-range aggregation strips the currency symbol
and the thousands separator from each stored text price, casts to a
number, and over the stored prices `["$19.99", "$1,234.56"]` yields
average 627.275, minimum 19.99 and maximum 1234.56 (computed exactly
over the rationals). -/
theorem priceRange_aggregation :
    numericPrice "$19.99" = some ((1999 : Rat) / 100) ∧
    numericPrice "$1,234.56" = some ((123456 : Rat) / 100) ∧
    priceRangeAnalysis ["$19.99", "$1,234.56"] =
      some ((627275 : Rat) / 1000, (1999 : Rat) / 100, (123456 : Rat) / 100) := by
  have h1 : numericPrice "$19.99" = some ((1999 : Rat) / 100) := by
    have hA : replaceAllChar ',' [] (replaceAllChar '$' [] "$19.99".data) =
        ['1', '9', '.', '9', '9'] := by decide
    have ht : (['1', '9', '.', '9', '9'].takeWhile (fun c => c ≠ '.')) =
        ['1', '9'] := by decide
    have hd : (['1', '9', '.', '9', '9'].dropWhile (fun c => c ≠ '.')) =
        ['.', '9', '9'] := by decide
    have ha : digitsToNat? ['1', '9'] = some 19 := by decide
    have hb : digitsToNat? ['9', '9'] = some 99 := by decide
    rw [numericPrice, hA, toDouble?, ht, hd]
    norm_num [ha, hb]
  have h2 : numericPrice "$1,234.56" = some ((123456 : Rat) / 100) := by
    have hA : replaceAllChar ',' [] (replaceAllChar '$' [] "$1,234.56".data) =
        ['1', '2', '3', '4', '.', '5', '6'] := by decide
    have ht : (['1', '2', '3', '4', '.', '5', '6'].takeWhile (fun c => c ≠ '.')) =
        ['1', '2', '3', '4'] := by decide
    have hd : (['1', '2', '3', '4', '.', '5', '6'].dropWhile (fun c => c ≠ '.')) =
        ['.', '5', '6'] := by decide
    have ha : digitsToNat? ['1', '2', '3', '4'] = some 1234 := by decide
    have hb : digitsToNat? ['5', '6'] = some 56 := by decide
    rw [numericPrice, hA, toDouble?, ht, hd]
    norm_num [ha, hb]
  refine ⟨h1, h2, ?_⟩
  rw [priceRangeAnalysis]
  simp only [List.mapM_cons, List.mapM_nil, h1, h2, Option.bind_some,
    Option.pure_def, Option.bind_eq_bind, Option.some_bind]
  norm_num [min_def, max_def]

/-- Helper: if `pat` is a prefix of `x ++ (pat ++ b)` with `x` non-empty,
then `pat` occurs inside `x ++ pat.dropLast`, i.e. strictly before the
occurrence at position `x.length`. -/
theorem prefix_into_dropLast {pat x b : List Char} (hne : pat ≠ [])
    (hx : x ≠ []) (hp : pat <+: x ++ (pat ++ b)) :
    pat <:+: x ++ pat.dropLast := by
  have hn : pat = (x ++ (pat ++ b)).take pat.length :=
    List.prefix_iff_eq_take.mp hp
  by_cases hcase : pat.length ≤ x.length
  · have hxx : (x ++ (pat ++ b)).take pat.length = x.take pat.length := by
      rw [List.take_append_eq_append_take]
      rw [Nat.sub_eq_zero_of_le hcase]
      simp
    have hpx : pat <+: x := List.prefix_iff_eq_take.mpr (hn.trans hxx)
    exact (hpx.trans (List.prefix_append x pat.dropLast)).isInfix
  · push_neg at hcase
    have hx1 : 1 ≤ x.length := List.length_pos.mpr hx
    have hn1 : 1 ≤ pat.length := List.length_pos.mpr hne
    have hstep : (x ++ (pat ++ b)).take pat.length =
        x ++ pat.dropLast.take (pat.length - x.length) := by
      rw [List.take_append_eq_append_take]
      rw [List.take_of_length_le (le_of_lt hcase)]
      congr 1
      rw [List.take_append_eq_append_take]
      have hzb : pat.length - x.length - pat.length = 0 := by omega
      rw [hzb]
      rw [List.dropLast_eq_take, List.take_take]
      have hmin : (pat.length - x.length) ⊓ (pat.length - 1) =
          pat.length - x.length := by
        apply min_eq_left
        omega
      rw [hmin]
      simp
    have hpat2 : pat = x ++ pat.dropLast.take (pat.length - x.length) :=
      hn.trans hstep
    have hpfx : pat <+: x ++ pat.dropLast := by
      refine ⟨pat.dropLast.drop (pat.length - x.length), ?_⟩
      nth_rewrite 1 [hpat2]
      rw [List.append_assoc, List.take_append_drop]
    exact hpfx.isInfix

/-- Helper: `listReplaceFirst` on a list whose first occurrence of the
pattern sits at position `a.length` replaces exactly that occurrence and
leaves the suffix `b` (which may itself contain the pattern) unchanged. -/
theorem listReplaceFirst_append (pat repl : List Char) (hne : pat ≠ [])
    (a b : List Char) (h : ¬ pat <:+: (a ++ pat.dropLast)) :
    listReplaceFirst pat repl (a ++ (pat ++ b)) = a ++ (repl ++ b) := by
  induction a with
  | nil =>
    simp only [List.nil_append]
    cases pat with
    | nil => exact absurd rfl hne
    | cons p ps =>
      have hpre : (p :: ps).isPrefixOf (p :: (ps ++ b)) = true :=
        List.isPrefixOf_iff_prefix.mpr (List.prefix_append (p :: ps) b)
      rw [List.cons_append, listReplaceFirst, if_pos hpre]
      have hdrop : (p :: (ps ++ b)).drop (p :: ps).length = b := by
        have h2 := List.drop_left (p :: ps) b
        rw [List.cons_append] at h2
        exact h2
      rw [hdrop]
  | cons c a ih =>
    have key : pat.isPrefixOf (c :: (a ++ (pat ++ b))) = false := by
      cases hb : pat.isPrefixOf (c :: (a ++ (pat ++ b))) with
      | false => rfl
      | true =>
        exfalso
        have hp : pat <+: (c :: a) ++ (pat ++ b) := by
          have h3 := List.isPrefixOf_iff_prefix.mp hb
          rw [List.cons_append]
          exact h3
        exact h (prefix_into_dropLast hne (List.cons_ne_nil c a) hp)
    show listReplaceFirst pat repl (c :: (a ++ (pat ++ b))) =
      c :: (a ++ (repl ++ b))
    rw [listReplaceFirst, key]
    simp only [Bool.false_eq_true, if_false]
    exact congrArg (c :: ·)
      (ih (fun hinf => h (List.infix_cons hinf)))

/-- Claim C10: the reviews-URL derivation replaces only the FIRST
occurrence of `/dp/`: if the URL splits as `a ++ "/dp/" ++ b` with no
occurrence of the marker starting before position `a.length`, the
result is `a ++ "/product-reviews/" ++ b` with the suffix `b` — which
may contain further `/dp/` occurrences — unchanged; in particular
`https://site/dp/A/dp/B` maps to `https://site/product-reviews/A/dp/B`. -/
theorem reviewsUrl_replaces_first_only (a b : List Char)
    (h : ¬ dpMarker <:+: (a ++ dpMarker.dropLast)) :
    reviewsUrlOf (String.mk (a ++ (dpMarker ++ b))) =
      String.mk (a ++ (productReviewsSeg ++ b)) ∧
    reviewsUrlOf "https://site/dp/A/dp/B" =
      "https://site/product-reviews/A/dp/B" := by
  refine ⟨?_, by decide⟩
  have hin : dpMarker <:+: (String.mk (a ++ (dpMarker ++ b))).data :=
    ⟨a, b, by rw [List.append_assoc]⟩
  unfold reviewsUrlOf
  rw [if_pos hin]
  exact congrArg String.mk
    (listReplaceFirst_append dpMarker productReviewsSeg (by decide) a b h)

/-- Witness for `reviewsUrl_replaces_first_only`: the prefix
`https://site` contains no marker, and the suffix `A/dp/B` keeps its
`/dp/` occurrence. -/
theorem reviewsUrl_replaces_first_only_witness :
    reviewsUrlOf (String.mk ("https://site".data ++ (dpMarker ++ "A/dp/B".data))) =
      String.mk ("https://site".data ++ (productReviewsSeg ++ "A/dp/B".data)) ∧
    reviewsUrlOf "https://site/dp/A/dp/B" =
      "https://site/product-reviews/A/dp/B" :=
  reviewsUrl_replaces_first_only "https://site".data "A/dp/B".data (by decide)

/-- Claim C7: the orchestrator scrapes details and reviews for exactly
the first 3 entries of the product list (all entries when fewer than 3
exist), regardless of the list's length: the slice is `take 3`, its
length is `min 3 N`, and with no failures the loop emits exactly a
detail event and a reviews event for each sliced entry in order. -/
theorem orchestrator_first_three (pl : ProductListDoc) :
    productsToScrape pl = pl.products.take 3 ∧
    (productsToScrape pl).length = min 3 pl.products.length ∧
    mainLoop (fun _ => false) (fun _ => false) pl =
      (pl.products.take 3).flatMap
        (fun p => [Event.detailScraped p.url, Event.reviewsScraped p.url]) := by
  refine ⟨rfl, ?_, ?_⟩
  · rw [productsToScrape, List.length_take]
  · rw [mainLoop, productsToScrape]
    exact congrArg (List.take 3 pl.products).flatMap
      (funext (fun p => by simp [processOne]))

/-- Claim C8: per-item error isolation — whatever the failure behaviour
of the detail and reviews scrapes (`df`, `rf` arbitrary, so any earlier
item may fail), every product of the sliced list still gets processed:
its iteration emits at least one event (a logged error if it failed)
and those events appear in the loop's run. -/
theorem perItem_isolation (df rf : String → Bool) (pl : ProductListDoc)
    (p : ProductDoc) (hp : p ∈ productsToScrape pl) :
    processOne df rf p ≠ [] ∧
    (processOne df rf p).Sublist (mainLoop df rf pl) := by
  constructor
  · unfold processOne
    split_ifs <;> simp
  · rw [mainLoop, List.flatMap_def]
    exact List.sublist_flatten_of_mem (List.mem_map_of_mem _ hp)

/-- Witness for `perItem_isolation`: in a two-product list whose first
item's detail scrape fails, the second item is still processed. -/
theorem perItem_isolation_witness :
    processOne (fun u => u == "uA") (fun _ => false)
        ⟨"B", "$2", "uB", none, none, none, 0⟩ ≠ [] ∧
    (processOne (fun u => u == "uA") (fun _ => false)
        ⟨"B", "$2", "uB", none, none, none, 0⟩).Sublist
      (mainLoop (fun u => u == "uA") (fun _ => false)
        ⟨[⟨"A", "$1", "uA", none, none, none, 0⟩,
          ⟨"B", "$2", "uB", none, none, none, 0⟩], "cat", 1, none, "Amazon", 0⟩) :=
  perItem_isolation (fun u => u == "uA") (fun _ => false)
    ⟨[⟨"A", "$1", "uA", none, none, none, 0⟩,
      ⟨"B", "$2", "uB", none, none, none, 0⟩], "cat", 1, none, "Amazon", 0⟩
    ⟨"B", "$2", "uB", none, none, none, 0⟩ (by decide)

end Scraper
